import Mathlib

/-!
Shallow embedding of the virtio-rdma device core of this repository
(src/vmm/src/devices/virtio/rdma/{device.rs, event_handler.rs, mod.rs},
src/vmm/src/vmm_config/rdma.rs, src/firecracker/src/api_server/request/rdma.rs).

Guest memory is a byte list indexed by guest address; reads and writes are
bounds-checked, returning `none` on an out-of-bounds access (the
`GuestMemoryError` path of the source).  Guest-memory accesses performed by the
device are additionally recorded in an event trace so that theorems can speak
about *when* memory is dereferenced, not only about the final state.
-/

namespace FirecrackerRdma

/-- `RDMA_NUM_QUEUES` from mod.rs. -/
def RDMA_NUM_QUEUES : Nat := 1

/-- `RDMA_QUEUE` from mod.rs. -/
def RDMA_QUEUE : Nat := 0

/-- `FIRECRACKER_MAX_QUEUE_SIZE` from the queue module (256). -/
def FIRECRACKER_MAX_QUEUE_SIZE : Nat := 256

/-- `RDMA_OPCODE_CREATE_QP` from device.rs. -/
def RDMA_OPCODE_CREATE_QP : Nat := 1

/-- `RDMA_STATUS_OK` from device.rs. -/
def RDMA_STATUS_OK : Nat := 0

/-- `RDMA_STATUS_ERR` from device.rs. -/
def RDMA_STATUS_ERR : Nat := 1

/-- Guest physical memory: byte `mem[a]` lives at guest address `a`; accesses
beyond `mem.length` are out of bounds. -/
abbrev GuestMem := List Nat

/-- Bounds-checked little-endian `u32` read at address `a`
(the decoding performed by `read_obj` + `u32::from_le`). -/
def readU32LE (mem : GuestMem) (a : Nat) : Option Nat :=
  match mem[a]?, mem[a + 1]?, mem[a + 2]?, mem[a + 3]? with
  | some b0, some b1, some b2, some b3 => some (b0 + 256 * (b1 + 256 * (b2 + 256 * b3)))
  | _, _, _, _ => none

/-- The four little-endian bytes of a `u32` value
(the encoding performed by `u32::to_le` + `write_obj`). -/
def u32LEBytes (v : Nat) : List Nat :=
  [v % 256, v / 256 % 256, v / 65536 % 256, v / 16777216 % 256]

/-- Bounds-checked single-byte store. -/
def writeByte (mem : GuestMem) (a : Nat) (b : Nat) : Option GuestMem :=
  if a < mem.length then some (mem.set a b) else none

/-- Bounds-checked multi-byte store at consecutive addresses starting at `a`. -/
def writeBytes (mem : GuestMem) (a : Nat) : List Nat → Option GuestMem
  | [] => some mem
  | b :: bs =>
    match writeByte mem a b with
    | some m2 => writeBytes m2 (a + 1) bs
    | none => none

/-- `read_obj::<RdmaRequest>` at `addr`: the 8-byte request record, decoded as
`(opcode, qp_id)` with both fields little-endian (`u32::from_le`). -/
def readReq (mem : GuestMem) (addr : Nat) : Option (Nat × Nat) :=
  match readU32LE mem addr, readU32LE mem (addr + 4) with
  | some opcode, some qp_id => some (opcode, qp_id)
  | _, _ => none

/-- One buffer descriptor of a guest descriptor chain: guest address, length,
and the device-side directionality flag (`is_write_only`). -/
structure Desc where
  addr : Nat
  len : Nat
  writeOnly : Bool
deriving DecidableEq, Repr

/-- A popped descriptor chain: the head descriptor's ring index (`head.index`),
the head descriptor itself, and the linked tail (`next_descriptor` walks it). -/
structure Chain where
  index : Nat
  head : Desc
  rest : List Desc
deriving DecidableEq, Repr

/-- The `RdmaQueueError` enum of device.rs. -/
inductive RdmaQueueError where
  | WriteOnlyDescriptor
  | ReadOnlyDescriptor
  | DescriptorChainTooShort
  | DescriptorTooShort
  | GuestMemory
deriving DecidableEq, Repr

/-- Observable guest-memory / interrupt effects of the device, in program
order.  `read a n` is a typed read attempt of `n` bytes at address `a`;
`write a bs` stores the bytes `bs` at address `a`. -/
inductive TraceEvent where
  | read (addr : Nat) (n : Nat)
  | write (addr : Nat) (bytes : List Nat)
  | interrupt
deriving DecidableEq, Repr

instance instDecEqExcept {ε α : Type} [DecidableEq ε] [DecidableEq α] :
    DecidableEq (Except ε α)
  | .error e1, .error e2 =>
    if h : e1 = e2 then .isTrue (by rw [h]) else .isFalse (by intro hx; cases hx; exact h rfl)
  | .error _, .ok _ => .isFalse (by intro hx; cases hx)
  | .ok _, .error _ => .isFalse (by intro hx; cases hx)
  | .ok a1, .ok a2 =>
    if h : a1 = a2 then .isTrue (by rw [h]) else .isFalse (by intro hx; cases hx; exact h rfl)

/-- `VirtioRdma::process_chain` from device.rs: validate the chain, read the
request, dispatch the opcode, write the response.  Returns the `Result`
(`Ok(used_len)` or the error), the resulting guest memory, and the trace of
guest-memory accesses in the order the source performs them. -/
def process_chain (mem : GuestMem) (head : Desc) (rest : List Desc) :
    Except RdmaQueueError Nat × GuestMem × List TraceEvent :=
  if head.writeOnly then (.error .WriteOnlyDescriptor, mem, [])
  else if head.len < 8 then (.error .DescriptorTooShort, mem, [])
  else
    match readReq mem head.addr with
    | none => (.error .GuestMemory, mem, [.read head.addr 8])
    | some (opcode, _qp_id) =>
      match rest.head? with
      | none => (.error .DescriptorChainTooShort, mem, [.read head.addr 8])
      | some resp_desc =>
        if resp_desc.writeOnly = false then
          (.error .ReadOnlyDescriptor, mem, [.read head.addr 8])
        else if resp_desc.len < 4 then
          (.error .DescriptorTooShort, mem, [.read head.addr 8])
        else
          let status := if opcode = RDMA_OPCODE_CREATE_QP then RDMA_STATUS_OK else RDMA_STATUS_ERR
          match writeBytes mem resp_desc.addr (u32LEBytes status) with
          | some mem2 =>
            (.ok 4, mem2, [.read head.addr 8, .write resp_desc.addr (u32LEBytes status)])
          | none => (.error .GuestMemory, mem, [.read head.addr 8])

/-- An eventfd counter (`EventFd::new(libc::EFD_NONBLOCK)` starts at 0;
`write(1)` adds 1). -/
structure EventFd where
  counter : Nat
deriving DecidableEq, Repr

/-- The slice of the generic `Queue` capability that the rdma device uses:
queue size, whether `initialize` has validated/cached the ring against guest
memory, the available chains in FIFO order, the used entries
`(descriptor index, written length)` in completion order, the private
`next_used` counter and the guest-visible published used index.  `notify`
abstracts the ring state that `prepare_kick` consults. -/
structure Queue where
  size : Nat
  ring_ready : Bool
  avail : List Chain
  used : List (Nat × Nat)
  next_used : Nat
  used_ring_idx : Nat
  notify : Bool
deriving DecidableEq, Repr

/-- `Queue::new(FIRECRACKER_MAX_QUEUE_SIZE)`: empty rings, not yet bound to
guest memory. -/
def Queue.new (size : Nat) : Queue :=
  { size := size, ring_ready := false, avail := [], used := [], next_used := 0,
    used_ring_idx := 0, notify := false }

/-- `ActiveState` of the generic device module: the guest-memory capability
bound at activation (the interrupt capability carries no state the rdma
claims observe beyond the `interrupt` trace event). -/
structure ActiveState where
  mem : GuestMem
deriving DecidableEq, Repr

/-- `DeviceState` of the generic device module. -/
inductive DeviceState where
  | Inactive
  | Activated (st : ActiveState)
deriving DecidableEq, Repr

/-- `DeviceState::is_activated`. -/
def DeviceState.is_activated : DeviceState → Bool
  | .Inactive => false
  | .Activated _ => true

/-- The `VirtioRdma` device structure from device.rs. -/
structure VirtioRdma where
  id : String
  avail_features : Nat
  acked_features : Nat
  activate_event : EventFd
  device_state : DeviceState
  queues : List Queue
  queue_events : List EventFd
deriving DecidableEq, Repr

/-- The success path of `VirtioRdma::new`: a failure to create either eventfd
(`RdmaError::EventFd`) aborts construction and yields no device, so a
successfully constructed device is exactly this value. -/
def VirtioRdma.new (id : String) : VirtioRdma :=
  { id := id
    avail_features := 0
    acked_features := 0
    activate_event := ⟨0⟩
    device_state := DeviceState.Inactive
    queues := List.replicate RDMA_NUM_QUEUES (Queue.new FIRECRACKER_MAX_QUEUE_SIZE)
    queue_events := List.replicate RDMA_NUM_QUEUES ⟨0⟩ }

/-- `VirtioDevice::is_activated` for `VirtioRdma`. -/
def VirtioRdma.is_activated (dev : VirtioRdma) : Bool :=
  dev.device_state.is_activated

/-- `VirtioRdma::read_config`: the source body is empty, so the caller's
buffer comes back exactly as passed in. -/
def VirtioRdma.read_config (_dev : VirtioRdma) (_offset : Nat) (data : List Nat) : List Nat :=
  data

/-- `VirtioRdma::write_config`: the source body is empty, so the device is
returned unchanged. -/
def VirtioRdma.write_config (dev : VirtioRdma) (_offset : Nat) (_data : List Nat) : VirtioRdma :=
  dev

/-- The `ActivateError` variants reachable from `VirtioRdma::activate`. -/
inductive ActivateError where
  | QueueMismatch (expected got : Nat)
  | QueueMemoryError
  | EventFd
deriving DecidableEq, Repr

/-- `VirtioRdma::activate` from device.rs.  The two environment-dependent
fallible steps are parameters: `queueInitOk` is whether `Queue::initialize`
accepts the supplied guest memory, and `signalOk` is whether the
`activate_event.write(1)` syscall succeeds.  Returns the `Result` together
with the device as left by the call. -/
def VirtioRdma.activate (dev : VirtioRdma) (mem : GuestMem)
    (queueInitOk : Bool) (signalOk : Bool) :
    Except ActivateError Unit × VirtioRdma :=
  if dev.queues.length ≠ RDMA_NUM_QUEUES then
    (.error (.QueueMismatch RDMA_NUM_QUEUES dev.queues.length), dev)
  else if queueInitOk = false then
    (.error .QueueMemoryError, dev)
  else
    let dev1 := { dev with queues := dev.queues.map (fun q => { q with ring_ready := true }) }
    if signalOk = false then
      (.error .EventFd, dev1)
    else
      (.ok (), { dev1 with
        activate_event := ⟨dev1.activate_event.counter + 1⟩
        device_state := DeviceState.Activated ⟨mem⟩ })

/-- The `while let Some(head) = queue.pop()` drain loop of
`VirtioRdma::handle_queue`: process each chain, complete it with
`add_used(head.index, used_len)` (0 on a per-chain error), break out of the
loop when `add_used` rejects the descriptor index.  Returns the final guest
memory, the chains left unpopped after a break, the used entries, the new
`next_used`, and the accumulated trace. -/
def drainLoop (mem : GuestMem) (size : Nat) (chains : List Chain)
    (used : List (Nat × Nat)) (nextUsed : Nat) (trace : List TraceEvent) :
    GuestMem × List Chain × List (Nat × Nat) × Nat × List TraceEvent :=
  match chains with
  | [] => (mem, [], used, nextUsed, trace)
  | c :: restChains =>
    let r := process_chain mem c.head c.rest
    let usedLen := match r.1 with
      | .ok l => l
      | .error _ => 0
    if c.index < size then
      drainLoop r.2.1 size restChains (used ++ [(c.index, usedLen)]) (nextUsed + 1)
        (trace ++ r.2.2)
    else
      (r.2.1, restChains, used, nextUsed, trace ++ r.2.2)

/-- `VirtioRdma::handle_queue`: `none` models the
`expect("Device is not initialized")` panic on an inactive device (and the
out-of-bounds `queues[0]` access on a device with no queue); otherwise drain
the queue, advance the published used index once, and raise the completion
interrupt if `prepare_kick` asks for it. -/
def VirtioRdma.handle_queue (dev : VirtioRdma) : Option (VirtioRdma × List TraceEvent) :=
  match dev.device_state with
  | DeviceState.Inactive => none
  | DeviceState.Activated st =>
    match dev.queues with
    | [] => none
    | q :: qs =>
      let r := drainLoop st.mem q.size q.avail q.used q.next_used []
      let newMem := r.1
      let remAvail := r.2.1
      let newUsed := r.2.2.1
      let newNextUsed := r.2.2.2.1
      let dtrace := r.2.2.2.2
      let q2 := { q with avail := remAvail, used := newUsed, next_used := newNextUsed,
                         used_ring_idx := newNextUsed }
      let trace := if q2.notify then dtrace ++ [TraceEvent.interrupt] else dtrace
      some ({ dev with device_state := DeviceState.Activated ⟨newMem⟩, queues := q2 :: qs },
        trace)

/-- Event-source tag `PROCESS_ACTIVATE` from event_handler.rs. -/
def PROCESS_ACTIVATE : Nat := 0

/-- Event-source tag `PROCESS_RDMA_QUEUE` from event_handler.rs. -/
def PROCESS_RDMA_QUEUE : Nat := 1

/-- What one call of `MutEventSubscriber::process` for `VirtioRdma` does with
a delivered event: which warning (log-and-drop) branch it takes, or which
handler it invokes. -/
inductive DispatchOutcome where
  | warnUnknownEventSet
  | warnSpurious
  | activateHandled
  | queueHandled
  | warnUnknownSource
deriving DecidableEq, Repr

/-- `MutEventSubscriber::process` from event_handler.rs: `hasIn` is whether
the fired event set contains `EventSet::IN`, `source` is the registration
tag carried by the event. -/
def dispatchProcess (dev : VirtioRdma) (hasIn : Bool) (source : Nat) : DispatchOutcome :=
  if hasIn = false then .warnUnknownEventSet
  else if dev.is_activated = false then .warnSpurious
  else if source = PROCESS_ACTIVATE then .activateHandled
  else if source = PROCESS_RDMA_QUEUE then .queueHandled
  else .warnUnknownSource

/-- `RdmaDeviceConfig` from vmm_config/rdma.rs. -/
structure RdmaDeviceConfig where
  id : String
deriving DecidableEq, Repr

/-- The `From<&VirtioRdma> for RdmaDeviceConfig` impl. -/
def RdmaDeviceConfig.ofDevice (dev : VirtioRdma) : RdmaDeviceConfig :=
  { id := dev.id }

/-- `RdmaDeviceBuilder` from vmm_config/rdma.rs: the registry's collection in
registration order (`Arc<Mutex<_>>` sharing is identity-irrelevant here; the
handle returned by `build` is the device value it stores). -/
structure RdmaDeviceBuilder where
  devices : List VirtioRdma
deriving DecidableEq, Repr

/-- `RdmaDeviceBuilder::new`. -/
def RdmaDeviceBuilder.new : RdmaDeviceBuilder :=
  { devices := [] }

/-- `RdmaDeviceBuilder::build`: find the first registered device with the
config's id, construct the new device, then either replace in place or
append; return the updated registry and the handle to the new device. -/
def RdmaDeviceBuilder.build (b : RdmaDeviceBuilder) (config : RdmaDeviceConfig) :
    RdmaDeviceBuilder × VirtioRdma :=
  let position := b.devices.findIdx? (fun dev => dev.id == config.id)
  let device := VirtioRdma.new config.id
  match position with
  | some index => ({ devices := b.devices.set index device }, device)
  | none => ({ devices := b.devices ++ [device] }, device)

/-- `RdmaDeviceBuilder::insert`. -/
def RdmaDeviceBuilder.insert (b : RdmaDeviceBuilder) (config : RdmaDeviceConfig) :
    RdmaDeviceBuilder :=
  (b.build config).1

/-- `RdmaDeviceBuilder::configs`. -/
def RdmaDeviceBuilder.configs (b : RdmaDeviceBuilder) : List RdmaDeviceConfig :=
  b.devices.map RdmaDeviceConfig.ofDevice

/-- A sequence of successful `insert` calls starting from the empty registry. -/
def insertSeq (cfgs : List RdmaDeviceConfig) : RdmaDeviceBuilder :=
  cfgs.foldl RdmaDeviceBuilder.insert RdmaDeviceBuilder.new

/-- The JSON values a request body can decode to. -/
inductive Json where
  | str (s : String)
  | num (n : Int)
  | bool (b : Bool)
  | null
  | obj (fields : List (String × Json))

/-- `serde_json::from_slice::<RdmaDeviceConfig>` with `deny_unknown_fields`:
the body must be an object whose fields are exactly the one required field
`id` bound to a string — a missing `id`, a non-string `id`, a duplicate
field, an unknown field, or a non-object body all fail. -/
def parseRdmaDeviceConfig (j : Json) : Option RdmaDeviceConfig :=
  match j with
  | Json.obj [("id", Json.str s)] => some { id := s }
  | _ => none

/-- `VmmAction` variants reachable from `parse_put_rdma`. -/
inductive VmmAction where
  | InsertRdmaDevice (cfg : RdmaDeviceConfig)
deriving DecidableEq, Repr

/-- The `RequestError` variants reachable from `parse_put_rdma`
(`Generic` carries the HTTP status code as a number, 400 = BadRequest). -/
inductive RequestError where
  | EmptyID
  | SerdeJson
  | Generic (status_code : Nat) (msg : String)
deriving DecidableEq, Repr

/-- Modelled from the spec: `checked_id` lives in
api_server/parsed_request.rs, which is not under src/.  The spec's
control-plane contract names only two client-error conditions for the path
identifier — absence, and mismatch with the body's `id` — so `checked_id`
is modelled as accepting every present identifier unchanged. -/
def checked_id (id : String) : Except RequestError String :=
  .ok id

/-- `parse_put_rdma` from api_server/request/rdma.rs (metrics counters are
pure logging and not modelled). -/
def parse_put_rdma (body : Json) (id_from_path : Option String) :
    Except RequestError VmmAction :=
  match id_from_path with
  | none => .error .EmptyID
  | some raw_id =>
    match checked_id raw_id with
    | .error e => .error e
    | .ok id =>
      match parseRdmaDeviceConfig body with
      | none => .error .SerdeJson
      | some device_cfg =>
        if id ≠ device_cfg.id then
          .error (.Generic 400 "The id from the path does not match the id from the body!")
        else
          .ok (.InsertRdmaDevice device_cfg)

/-! ## Helper lemmas about the guest-memory model -/

theorem writeBytes_cons (mem : GuestMem) (a b : Nat) (bs : List Nat) :
    writeBytes mem a (b :: bs) =
      if a < mem.length then writeBytes (mem.set a b) (a + 1) bs else none := by
  by_cases h : a < mem.length <;> simp [writeBytes, writeByte, h]

theorem writeBytes_u32_isSome {mem : GuestMem} {a : Nat} (v : Nat) (h : a + 4 ≤ mem.length) :
    ∃ m2, writeBytes mem a (u32LEBytes v) = some m2 := by
  rw [u32LEBytes, writeBytes_cons, if_pos (by omega)]
  rw [writeBytes_cons, List.length_set, if_pos (by omega)]
  rw [writeBytes_cons, List.length_set, List.length_set, if_pos (by omega)]
  rw [writeBytes_cons, List.length_set, List.length_set, List.length_set, if_pos (by omega)]
  exact ⟨_, rfl⟩

theorem writeBytes_u32_spec {mem m2 : GuestMem} {a v : Nat}
    (h : writeBytes mem a (u32LEBytes v) = some m2) (hv : v < 4294967296) :
    readU32LE m2 a = some v := by
  rw [u32LEBytes, writeBytes_cons] at h
  by_cases h0 : a < mem.length
  swap
  · rw [if_neg h0] at h
    exact absurd h (by simp)
  rw [if_pos h0, writeBytes_cons, List.length_set] at h
  by_cases h1 : a + 1 < mem.length
  swap
  · rw [if_neg h1] at h
    exact absurd h (by simp)
  rw [if_pos h1, writeBytes_cons, List.length_set, List.length_set] at h
  by_cases h2 : a + 2 < mem.length
  swap
  · rw [if_neg h2] at h
    exact absurd h (by simp)
  rw [if_pos h2, writeBytes_cons, List.length_set, List.length_set, List.length_set] at h
  by_cases h3 : a + 3 < mem.length
  swap
  · rw [if_neg h3] at h
    exact absurd h (by simp)
  rw [if_pos h3] at h
  simp only [writeBytes] at h
  have hm : m2 = (((mem.set a (v % 256)).set (a + 1) (v / 256 % 256)).set
      (a + 2) (v / 65536 % 256)).set (a + 3) (v / 16777216 % 256) :=
    (Option.some.inj h).symm
  have e0 : ((((mem.set a (v % 256)).set (a + 1) (v / 256 % 256)).set
      (a + 2) (v / 65536 % 256)).set (a + 3) (v / 16777216 % 256))[a]? = some (v % 256) := by
    rw [List.getElem?_set_ne (by omega), List.getElem?_set_ne (by omega),
      List.getElem?_set_ne (by omega), List.getElem?_set_eq_of_lt _ h0]
  have e1 : ((((mem.set a (v % 256)).set (a + 1) (v / 256 % 256)).set
      (a + 2) (v / 65536 % 256)).set (a + 3) (v / 16777216 % 256))[a + 1]? =
      some (v / 256 % 256) := by
    rw [List.getElem?_set_ne (by omega), List.getElem?_set_ne (by omega),
      List.getElem?_set_eq_of_lt _ (by rw [List.length_set]; omega)]
  have e2 : ((((mem.set a (v % 256)).set (a + 1) (v / 256 % 256)).set
      (a + 2) (v / 65536 % 256)).set (a + 3) (v / 16777216 % 256))[a + 2]? =
      some (v / 65536 % 256) := by
    rw [List.getElem?_set_ne (by omega),
      List.getElem?_set_eq_of_lt _ (by rw [List.length_set, List.length_set]; omega)]
  have e3 : ((((mem.set a (v % 256)).set (a + 1) (v / 256 % 256)).set
      (a + 2) (v / 65536 % 256)).set (a + 3) (v / 16777216 % 256))[a + 3]? =
      some (v / 16777216 % 256) := by
    rw [List.getElem?_set_eq_of_lt _
      (by rw [List.length_set, List.length_set, List.length_set]; omega)]
  subst hm
  rw [readU32LE, e0, e1, e2, e3]
  simp only [Option.some.injEq]
  omega

theorem readU32LE_isSome {mem : GuestMem} {a : Nat} (h : a + 4 ≤ mem.length) :
    ∃ w, readU32LE mem a = some w := by
  rw [readU32LE, List.getElem?_eq_getElem (by omega : a < mem.length),
    List.getElem?_eq_getElem (by omega : a + 1 < mem.length),
    List.getElem?_eq_getElem (by omega : a + 2 < mem.length),
    List.getElem?_eq_getElem (by omega : a + 3 < mem.length)]
  exact ⟨_, rfl⟩

theorem readReq_isSome {mem : GuestMem} {a : Nat} (h : a + 8 ≤ mem.length) :
    ∃ op qp, readReq mem a = some (op, qp) := by
  obtain ⟨w1, e1⟩ := @readU32LE_isSome mem a (by omega)
  obtain ⟨w2, e2⟩ := @readU32LE_isSome mem (a + 4) (by omega)
  exact ⟨w1, w2, by rw [readReq, e1, e2]⟩

/-! ## Claim theorems -/

/-- C1 counterexample: the claim that no guest memory is dereferenced for a
chain whose second descriptor is missing is false on the code.  With 16 bytes
of guest memory and a single readable 8-byte descriptor (no second
descriptor), `process_chain` fails with `DescriptorChainTooShort`, yet its
trace already contains the typed 8-byte read of the request record. -/
theorem C1_counterexample :
    (process_chain (List.replicate 16 0) ⟨0, 8, false⟩ []).1 =
        Except.error RdmaQueueError.DescriptorChainTooShort ∧
      (process_chain (List.replicate 16 0) ⟨0, 8, false⟩ []).2.2 = [TraceEvent.read 0 8] := by
  decide

/-- C1 (amended): `process_chain` performs the typed guest-memory read of the
request record only after the first descriptor's two structural checks
(readable and at least 8 bytes) pass, and before the second descriptor's
checks; for any chain whose first descriptor is write-only or shorter than
8 bytes no guest memory is dereferenced, while for any chain passing the
first descriptor's checks the very first memory access is the 8-byte typed
read at the first descriptor's address. -/
theorem C1_read_after_first_desc_checks (mem : GuestMem) (head : Desc) (rest : List Desc) :
    (head.writeOnly = true →
        process_chain mem head rest = (.error .WriteOnlyDescriptor, mem, [])) ∧
      (head.writeOnly = false → head.len < 8 →
        process_chain mem head rest = (.error .DescriptorTooShort, mem, [])) ∧
      (head.writeOnly = false → 8 ≤ head.len →
        (process_chain mem head rest).2.2.head? = some (.read head.addr 8)) := by
  refine ⟨fun h => by simp [process_chain, h], fun h h8 => by simp [process_chain, h, h8],
    fun h h8 => ?_⟩
  rw [process_chain, if_neg (by simp [h]), if_neg (by omega)]
  cases hr : readReq mem head.addr with
  | none => simp
  | some p =>
    obtain ⟨op, qp⟩ := p
    cases hh : rest.head? with
    | none => simp
    | some d =>
      by_cases hw : d.writeOnly = false
      · simp [hw]
      · have hw2 : d.writeOnly = true := by revert hw; cases d.writeOnly <;> simp
        by_cases hl : d.len < 4
        · simp [hw2, hl]
        · cases hwb : writeBytes mem d.addr
              (u32LEBytes (if op = RDMA_OPCODE_CREATE_QP then RDMA_STATUS_OK
                else RDMA_STATUS_ERR)) with
          | none => simp [hw2, hl, hwb]
          | some m2 => simp [hw2, hl, hwb]

/-- C1 (amended) witness: each hypothesis of the amended theorem discharged at
a concrete chain. -/
theorem C1_read_after_first_desc_checks_witness :
    process_chain [0] ⟨0, 8, true⟩ [] = (.error .WriteOnlyDescriptor, [0], []) ∧
      process_chain [0] ⟨0, 2, false⟩ [] = (.error .DescriptorTooShort, [0], []) ∧
      (process_chain (List.replicate 9 0) ⟨1, 8, false⟩ []).2.2.head? =
        some (TraceEvent.read 1 8) :=
  ⟨(C1_read_after_first_desc_checks [0] ⟨0, 8, true⟩ []).1 rfl,
    (C1_read_after_first_desc_checks [0] ⟨0, 2, false⟩ []).2.1 rfl (by decide),
    (C1_read_after_first_desc_checks (List.replicate 9 0) ⟨1, 8, false⟩ []).2.2 rfl
      (by decide)⟩

theorem process_chain_invalid (mem : GuestMem) (head : Desc) (rest : List Desc)
    (hbad : head.writeOnly = true ∨ head.len < 8 ∨ rest.head? = none ∨
      (∃ d, rest.head? = some d ∧ (d.writeOnly = false ∨ d.len < 4))) :
    (∃ e, (process_chain mem head rest).1 = Except.error e) ∧
      (process_chain mem head rest).2.1 = mem ∧
      ((process_chain mem head rest).2.2 = [] ∨
        (process_chain mem head rest).2.2 = [TraceEvent.read head.addr 8]) := by
  by_cases hwo : head.writeOnly = true
  · have hpc : process_chain mem head rest = (.error .WriteOnlyDescriptor, mem, []) := by
      simp [process_chain, hwo]
    exact ⟨⟨_, by rw [hpc]⟩, by rw [hpc], Or.inl (by rw [hpc])⟩
  have hwo2 : head.writeOnly = false := by revert hwo; cases head.writeOnly <;> simp
  by_cases hlen : head.len < 8
  · have hpc : process_chain mem head rest = (.error .DescriptorTooShort, mem, []) := by
      simp [process_chain, hwo2, hlen]
    exact ⟨⟨_, by rw [hpc]⟩, by rw [hpc], Or.inl (by rw [hpc])⟩
  cases hr : readReq mem head.addr with
  | none =>
    have hpc : process_chain mem head rest =
        (.error .GuestMemory, mem, [.read head.addr 8]) := by
      simp [process_chain, hwo2, hlen, hr]
    exact ⟨⟨_, by rw [hpc]⟩, by rw [hpc], Or.inr (by rw [hpc])⟩
  | some p =>
    obtain ⟨op, qp⟩ := p
    cases hh : rest.head? with
    | none =>
      have hpc : process_chain mem head rest =
          (.error .DescriptorChainTooShort, mem, [.read head.addr 8]) := by
        simp [process_chain, hwo2, hlen, hr, hh]
      exact ⟨⟨_, by rw [hpc]⟩, by rw [hpc], Or.inr (by rw [hpc])⟩
    | some d =>
      have hd : d.writeOnly = false ∨ d.len < 4 := by
        rcases hbad with h | h | h | ⟨d2, hd2, hbad2⟩
        · exact absurd h (by simp [hwo2])
        · omega
        · rw [hh] at h; cases h
        · rw [hh] at hd2; cases hd2; exact hbad2
      by_cases hdw : d.writeOnly = false
      · have hpc : process_chain mem head rest =
            (.error .ReadOnlyDescriptor, mem, [.read head.addr 8]) := by
          simp [process_chain, hwo2, hlen, hr, hh, hdw]
        exact ⟨⟨_, by rw [hpc]⟩, by rw [hpc], Or.inr (by rw [hpc])⟩
      · have hdw2 : d.writeOnly = true := by revert hdw; cases d.writeOnly <;> simp
        have hdl : d.len < 4 := by
          rcases hd with h | h
          · exact absurd h hdw
          · exact h
        have hpc : process_chain mem head rest =
            (.error .DescriptorTooShort, mem, [.read head.addr 8]) := by
          simp [process_chain, hwo2, hlen, hr, hh, hdw2, hdl]
        exact ⟨⟨_, by rw [hpc]⟩, by rw [hpc], Or.inr (by rw [hpc])⟩

theorem process_chain_valid (mem : GuestMem) (head resp : Desc) (rest : List Desc)
    (hro : head.writeOnly = false) (hlen : 8 ≤ head.len)
    (hreq : head.addr + 8 ≤ mem.length)
    (hwo : resp.writeOnly = true) (hrlen : 4 ≤ resp.len)
    (hresp : resp.addr + 4 ≤ mem.length) :
    ∃ op qp mem2,
      readReq mem head.addr = some (op, qp) ∧
      writeBytes mem resp.addr
        (u32LEBytes (if op = RDMA_OPCODE_CREATE_QP then RDMA_STATUS_OK else RDMA_STATUS_ERR)) =
        some mem2 ∧
      process_chain mem head (resp :: rest) =
        (.ok 4, mem2,
          [.read head.addr 8,
            .write resp.addr (u32LEBytes (if op = RDMA_OPCODE_CREATE_QP then RDMA_STATUS_OK
              else RDMA_STATUS_ERR))]) := by
  obtain ⟨op, qp, hr⟩ := readReq_isSome hreq
  obtain ⟨mem2, hw⟩ := writeBytes_u32_isSome
    (if op = RDMA_OPCODE_CREATE_QP then RDMA_STATUS_OK else RDMA_STATUS_ERR) hresp
  refine ⟨op, qp, mem2, hr, hw, ?_⟩
  simp [process_chain, hro, hr, hwo, hw, show ¬ head.len < 8 from by omega,
    show ¬ resp.len < 4 from by omega]

/-- C2: for every well-formed two-descriptor chain (first descriptor readable,
at least 8 bytes and backed by guest memory; second descriptor write-only, at
least 4 bytes and backed by guest memory), processing writes the 4-byte
little-endian response whose status is `RDMA_STATUS_OK` (0) exactly when the
little-endian-decoded opcode equals `RDMA_OPCODE_CREATE_QP` (1) and
`RDMA_STATUS_ERR` (1) otherwise, and the drain loop marks the chain used with
exactly 4 bytes. -/
theorem C2_wellformed_chain_response (mem : GuestMem) (index size : Nat) (head resp : Desc)
    (used : List (Nat × Nat)) (nextUsed : Nat) (trace : List TraceEvent)
    (hro : head.writeOnly = false) (hlen : 8 ≤ head.len)
    (hreq : head.addr + 8 ≤ mem.length)
    (hwo : resp.writeOnly = true) (hrlen : 4 ≤ resp.len)
    (hresp : resp.addr + 4 ≤ mem.length)
    (hidx : index < size) :
    ∃ op qp mem2,
      readReq mem head.addr = some (op, qp) ∧
      process_chain mem head [resp] =
        (.ok 4, mem2,
          [.read head.addr 8,
            .write resp.addr (u32LEBytes (if op = RDMA_OPCODE_CREATE_QP then RDMA_STATUS_OK
              else RDMA_STATUS_ERR))]) ∧
      readU32LE mem2 resp.addr =
        some (if op = RDMA_OPCODE_CREATE_QP then RDMA_STATUS_OK else RDMA_STATUS_ERR) ∧
      drainLoop mem size [⟨index, head, [resp]⟩] used nextUsed trace =
        (mem2, [], used ++ [(index, 4)], nextUsed + 1,
          trace ++ [.read head.addr 8,
            .write resp.addr (u32LEBytes (if op = RDMA_OPCODE_CREATE_QP then RDMA_STATUS_OK
              else RDMA_STATUS_ERR))]) := by
  obtain ⟨op, qp, mem2, hr, hw, hpc⟩ :=
    process_chain_valid mem head resp [] hro hlen hreq hwo hrlen hresp
  refine ⟨op, qp, mem2, hr, hpc, writeBytes_u32_spec hw (by split <;> decide), ?_⟩
  simp [drainLoop, hpc, hidx]

/-- C2 witness: the well-formed chain of the repository's own unit test
(opcode CREATE_QP, qp_id 7) and a second chain with an unknown opcode 2,
each processed through the amended theorem's hypotheses at concrete inputs. -/
theorem C2_wellformed_chain_response_witness :
    (∃ op qp mem2,
      readReq [1, 0, 0, 0, 7, 0, 0, 0, 239, 190, 173, 222] 0 = some (op, qp) ∧
      process_chain [1, 0, 0, 0, 7, 0, 0, 0, 239, 190, 173, 222] ⟨0, 8, false⟩ [⟨8, 4, true⟩] =
        (.ok 4, mem2,
          [.read 0 8,
            .write 8 (u32LEBytes (if op = RDMA_OPCODE_CREATE_QP then RDMA_STATUS_OK
              else RDMA_STATUS_ERR))]) ∧
      readU32LE mem2 8 =
        some (if op = RDMA_OPCODE_CREATE_QP then RDMA_STATUS_OK else RDMA_STATUS_ERR) ∧
      drainLoop [1, 0, 0, 0, 7, 0, 0, 0, 239, 190, 173, 222] 256 [⟨0, ⟨0, 8, false⟩, [⟨8, 4, true⟩]⟩]
          [] 0 [] =
        (mem2, [], [(0, 4)], 1,
          [.read 0 8,
            .write 8 (u32LEBytes (if op = RDMA_OPCODE_CREATE_QP then RDMA_STATUS_OK
              else RDMA_STATUS_ERR))])) ∧
    (∃ op qp mem2,
      readReq [2, 0, 0, 0, 7, 0, 0, 0, 239, 190, 173, 222] 0 = some (op, qp) ∧
      process_chain [2, 0, 0, 0, 7, 0, 0, 0, 239, 190, 173, 222] ⟨0, 8, false⟩ [⟨8, 4, true⟩] =
        (.ok 4, mem2,
          [.read 0 8,
            .write 8 (u32LEBytes (if op = RDMA_OPCODE_CREATE_QP then RDMA_STATUS_OK
              else RDMA_STATUS_ERR))]) ∧
      readU32LE mem2 8 =
        some (if op = RDMA_OPCODE_CREATE_QP then RDMA_STATUS_OK else RDMA_STATUS_ERR) ∧
      drainLoop [2, 0, 0, 0, 7, 0, 0, 0, 239, 190, 173, 222] 256 [⟨0, ⟨0, 8, false⟩, [⟨8, 4, true⟩]⟩]
          [] 0 [] =
        (mem2, [], [(0, 4)], 1,
          [.read 0 8,
            .write 8 (u32LEBytes (if op = RDMA_OPCODE_CREATE_QP then RDMA_STATUS_OK
              else RDMA_STATUS_ERR))])) :=
  ⟨C2_wellformed_chain_response [1, 0, 0, 0, 7, 0, 0, 0, 239, 190, 173, 222] 0 256
      ⟨0, 8, false⟩ ⟨8, 4, true⟩ [] 0 [] rfl (by decide) (by decide) rfl (by decide)
      (by decide) (by decide),
    C2_wellformed_chain_response [2, 0, 0, 0, 7, 0, 0, 0, 239, 190, 173, 222] 0 256
      ⟨0, 8, false⟩ ⟨8, 4, true⟩ [] 0 [] rfl (by decide) (by decide) rfl (by decide)
      (by decide) (by decide)⟩

/-- C3: every chain failing one of the five structural checks (first
descriptor write-only, or shorter than 8 bytes, or no second descriptor, or
second descriptor read-only or shorter than 4 bytes) produces an error, writes
nothing into guest memory, is marked used with 0 bytes, and the drain loop
continues with the remaining available chains from unchanged guest memory
rather than aborting. -/
theorem C3_invalid_chain_dropped (mem : GuestMem) (c : Chain) (cs : List Chain)
    (size : Nat) (used : List (Nat × Nat)) (nextUsed : Nat) (trace : List TraceEvent)
    (hbad : c.head.writeOnly = true ∨ c.head.len < 8 ∨ c.rest.head? = none ∨
      (∃ d, c.rest.head? = some d ∧ (d.writeOnly = false ∨ d.len < 4)))
    (hidx : c.index < size) :
    (∃ e, (process_chain mem c.head c.rest).1 = Except.error e) ∧
      (process_chain mem c.head c.rest).2.1 = mem ∧
      (∀ a bs, TraceEvent.write a bs ∉ (process_chain mem c.head c.rest).2.2) ∧
      drainLoop mem size (c :: cs) used nextUsed trace =
        drainLoop mem size cs (used ++ [(c.index, 0)]) (nextUsed + 1)
          (trace ++ (process_chain mem c.head c.rest).2.2) := by
  obtain ⟨⟨e, he⟩, hmem, htr⟩ := process_chain_invalid mem c.head c.rest hbad
  refine ⟨⟨e, he⟩, hmem, ?_, ?_⟩
  · intro a bs hin
    rcases htr with h | h <;> rw [h] at hin <;> simp at hin
  · rw [drainLoop]
    simp only [he, hmem, hidx, if_pos]

/-- C3 witness: a chain whose second descriptor is read-only, followed by one
more available chain, at a concrete queue state. -/
theorem C3_invalid_chain_dropped_witness :
    (∃ e, (process_chain [0, 0, 0, 0, 0, 0, 0, 0] (Desc.mk 0 8 false) [Desc.mk 0 4 false]).1 =
        Except.error e) ∧
      (process_chain [0, 0, 0, 0, 0, 0, 0, 0] (Desc.mk 0 8 false) [Desc.mk 0 4 false]).2.1 =
        [0, 0, 0, 0, 0, 0, 0, 0] ∧
      (∀ a bs, TraceEvent.write a bs ∉
        (process_chain [0, 0, 0, 0, 0, 0, 0, 0] (Desc.mk 0 8 false) [Desc.mk 0 4 false]).2.2) ∧
      drainLoop [0, 0, 0, 0, 0, 0, 0, 0] 256
          [⟨3, Desc.mk 0 8 false, [Desc.mk 0 4 false]⟩, ⟨5, Desc.mk 0 8 true, []⟩] [] 0 [] =
        drainLoop [0, 0, 0, 0, 0, 0, 0, 0] 256 [⟨5, Desc.mk 0 8 true, []⟩] [(3, 0)] 1
          ([] ++ (process_chain [0, 0, 0, 0, 0, 0, 0, 0] (Desc.mk 0 8 false)
            [Desc.mk 0 4 false]).2.2) :=
  C3_invalid_chain_dropped [0, 0, 0, 0, 0, 0, 0, 0]
    ⟨3, Desc.mk 0 8 false, [Desc.mk 0 4 false]⟩ [⟨5, Desc.mk 0 8 true, []⟩] 256 [] 0 []
    (Or.inr (Or.inr (Or.inr ⟨Desc.mk 0 4 false, rfl, Or.inl rfl⟩))) (by decide)

/-- C4: `activate` fails with a queue-count-mismatch error when the queue
count differs from `RDMA_NUM_QUEUES` (1) and with an eventfd error when
signaling the activation event fails; every failing activation leaves
`device_state` exactly as it was (in particular an `Inactive` device stays
`Inactive`). -/
theorem C4_activate_failure_stays_inactive (dev : VirtioRdma) (mem : GuestMem)
    (queueInitOk signalOk : Bool) :
    (dev.queues.length ≠ RDMA_NUM_QUEUES →
        (dev.activate mem queueInitOk signalOk).1 =
          Except.error (.QueueMismatch RDMA_NUM_QUEUES dev.queues.length)) ∧
      (dev.queues.length = RDMA_NUM_QUEUES → queueInitOk = true → signalOk = false →
        (dev.activate mem queueInitOk signalOk).1 = Except.error .EventFd) ∧
      (∀ e, (dev.activate mem queueInitOk signalOk).1 = Except.error e →
        (dev.activate mem queueInitOk signalOk).2.device_state = dev.device_state) := by
  by_cases hq : dev.queues.length = RDMA_NUM_QUEUES
  · refine ⟨fun h => absurd hq h, fun _ hqi hs => ?_, fun e he => ?_⟩
    · simp [VirtioRdma.activate, hq, hqi, hs]
    · by_cases hqi : queueInitOk = false
      · simp [VirtioRdma.activate, hq, hqi]
      · have hqi2 : queueInitOk = true := by revert hqi; cases queueInitOk <;> simp
        by_cases hs : signalOk = false
        · simp [VirtioRdma.activate, hq, hqi2, hs]
        · have hs2 : signalOk = true := by revert hs; cases signalOk <;> simp
          simp [VirtioRdma.activate, hq, hqi2, hs2] at he
  · exact ⟨fun _ => by simp [VirtioRdma.activate, hq],
      fun h => absurd h hq,
      fun e he => by simp [VirtioRdma.activate, hq]⟩

/-- C4 witness: a device stripped of its queue fails activation with the
mismatch error, and a well-formed device whose activation-event signal fails
gets the eventfd error, with `device_state` untouched in both cases. -/
theorem C4_activate_failure_stays_inactive_witness :
    (({ VirtioRdma.new "rdma0" with queues := [] }).activate [] true true).1 =
        Except.error (.QueueMismatch RDMA_NUM_QUEUES
          ({ VirtioRdma.new "rdma0" with queues := [] }).queues.length) ∧
      ((VirtioRdma.new "rdma0").activate [] true false).1 = Except.error .EventFd ∧
      ((VirtioRdma.new "rdma0").activate [] true false).2.device_state =
        (VirtioRdma.new "rdma0").device_state :=
  ⟨(C4_activate_failure_stays_inactive { VirtioRdma.new "rdma0" with queues := [] }
      [] true true).1 (by decide),
    (C4_activate_failure_stays_inactive (VirtioRdma.new "rdma0") [] true false).2.1
      (by decide) rfl rfl,
    (C4_activate_failure_stays_inactive (VirtioRdma.new "rdma0") [] true false).2.2
      ActivateError.EventFd
      ((C4_activate_failure_stays_inactive (VirtioRdma.new "rdma0") [] true false).2.1
        (by decide) rfl rfl)⟩

/-- C5: while the device is not activated, every event delivered to the
dispatcher is dropped without invoking either handler — the dispatcher never
reaches `process_activate_event` or `process_queue_event` — and every
genuinely delivered event (readiness bit set) is logged as spurious. -/
theorem C5_inactive_events_dropped (dev : VirtioRdma) (hasIn : Bool) (source : Nat)
    (h : dev.device_state = DeviceState.Inactive) :
    dispatchProcess dev hasIn source ≠ DispatchOutcome.activateHandled ∧
      dispatchProcess dev hasIn source ≠ DispatchOutcome.queueHandled ∧
      (hasIn = true → dispatchProcess dev hasIn source = DispatchOutcome.warnSpurious) := by
  have hia : dev.is_activated = false := by
    rw [VirtioRdma.is_activated, h]
    rfl
  cases hasIn
  · simp [dispatchProcess]
  · simp [dispatchProcess, hia]

/-- C5 witness: a freshly constructed (hence inactive) device receiving a
queue-notification event. -/
theorem C5_inactive_events_dropped_witness :
    dispatchProcess (VirtioRdma.new "rdma0") true PROCESS_RDMA_QUEUE ≠
        DispatchOutcome.activateHandled ∧
      dispatchProcess (VirtioRdma.new "rdma0") true PROCESS_RDMA_QUEUE ≠
        DispatchOutcome.queueHandled ∧
      (true = true → dispatchProcess (VirtioRdma.new "rdma0") true PROCESS_RDMA_QUEUE =
        DispatchOutcome.warnSpurious) :=
  C5_inactive_events_dropped (VirtioRdma.new "rdma0") true PROCESS_RDMA_QUEUE rfl

/-- C9: a successfully constructed device starts with zero available and zero
acked feature bits, an `Inactive` activation state, and exactly
`RDMA_NUM_QUEUES` (= 1) queues with one queue event source each. -/
theorem C9_new_device_initial_state (id : String) :
    (VirtioRdma.new id).id = id ∧
      (VirtioRdma.new id).avail_features = 0 ∧
      (VirtioRdma.new id).acked_features = 0 ∧
      (VirtioRdma.new id).device_state = DeviceState.Inactive ∧
      (VirtioRdma.new id).queues.length = RDMA_NUM_QUEUES ∧
      (VirtioRdma.new id).queue_events.length = RDMA_NUM_QUEUES ∧
      RDMA_NUM_QUEUES = 1 := by
  refine ⟨rfl, rfl, rfl, rfl, ?_, ?_, rfl⟩ <;> simp [VirtioRdma.new]

theorem set_same {α : Type} {l : List α} {i : Nat} {a : α} (h : l[i]? = some a) :
    l.set i a = l := by
  apply List.ext_getElem?
  intro j
  rw [List.getElem?_set]
  by_cases hij : i = j
  · subst hij
    have hlt : i < l.length := by
      rcases List.getElem?_eq_some.mp h with ⟨hl, _⟩
      exact hl
    rw [if_pos rfl, if_pos hlt, h]
  · rw [if_neg hij]

theorem build_ids (b : RdmaDeviceBuilder) (config : RdmaDeviceConfig) :
    (b.build config).1.devices.map (fun dev => dev.id) =
      if (b.devices.findIdx? (fun dev => dev.id == config.id)).isSome then
        b.devices.map (fun dev => dev.id)
      else b.devices.map (fun dev => dev.id) ++ [config.id] := by
  cases hpos : b.devices.findIdx? (fun dev => dev.id == config.id) with
  | none => simp [RdmaDeviceBuilder.build, hpos, VirtioRdma.new]
  | some i =>
    obtain ⟨hi, hfi⟩ := List.findIdx?_eq_some_iff_findIdx_eq.mp hpos
    have hp : (b.devices[i].id == config.id) = true := by
      subst hfi
      exact List.findIdx_getElem (w := hi)
    have hid : b.devices[i].id = config.id := by
      exact beq_iff_eq.mp hp
    have hmap : (b.devices.map (fun dev => dev.id))[i]? = some config.id := by
      rw [List.getElem?_eq_getElem (by simpa using hi)]
      simp [hid]
    rw [if_pos (show (some i).isSome = true from rfl)]
    simp only [RdmaDeviceBuilder.build, hpos]
    rw [List.map_set]
    exact set_same hmap

theorem insert_ids_new (b : RdmaDeviceBuilder) (config : RdmaDeviceConfig) :
    config.id ∈ (b.insert config).devices.map (fun dev => dev.id) := by
  rw [RdmaDeviceBuilder.insert, build_ids]
  by_cases hcase : (b.devices.findIdx? (fun dev => dev.id == config.id)).isSome = true
  · rw [if_pos hcase]
    rw [List.findIdx?_isSome, List.any_eq_true] at hcase
    obtain ⟨dev, hmem, hb⟩ := hcase
    exact List.mem_map.mpr ⟨dev, hmem, beq_iff_eq.mp hb⟩
  · rw [if_neg hcase]
    exact List.mem_append_right _ (List.mem_singleton.mpr rfl)

theorem insert_ids_preserve (b : RdmaDeviceBuilder) (config : RdmaDeviceConfig) (s : String)
    (h : s ∈ b.devices.map (fun dev => dev.id)) :
    s ∈ (b.insert config).devices.map (fun dev => dev.id) := by
  rw [RdmaDeviceBuilder.insert, build_ids]
  by_cases hcase : (b.devices.findIdx? (fun dev => dev.id == config.id)).isSome = true
  · rwa [if_pos hcase]
  · rw [if_neg hcase]
    exact List.mem_append_left _ h

theorem insert_ids_origin (b : RdmaDeviceBuilder) (config : RdmaDeviceConfig) (s : String)
    (h : s ∈ (b.insert config).devices.map (fun dev => dev.id)) :
    s ∈ b.devices.map (fun dev => dev.id) ∨ s = config.id := by
  rw [RdmaDeviceBuilder.insert, build_ids] at h
  by_cases hcase : (b.devices.findIdx? (fun dev => dev.id == config.id)).isSome = true
  · rw [if_pos hcase] at h
    exact Or.inl h
  · rw [if_neg hcase] at h
    rcases List.mem_append.mp h with h2 | h2
    · exact Or.inl h2
    · exact Or.inr (List.mem_singleton.mp h2)

theorem foldl_ids_preserve (cfgs : List RdmaDeviceConfig) :
    ∀ (b : RdmaDeviceBuilder) (s : String), s ∈ b.devices.map (fun dev => dev.id) →
      s ∈ (cfgs.foldl RdmaDeviceBuilder.insert b).devices.map (fun dev => dev.id) := by
  induction cfgs with
  | nil => intro b s h; exact h
  | cons c rest ih =>
    intro b s h
    exact ih (b.insert c) s (insert_ids_preserve b c s h)

theorem foldl_ids_mem (cfgs : List RdmaDeviceConfig) :
    ∀ (b : RdmaDeviceBuilder) (c : RdmaDeviceConfig), c ∈ cfgs →
      c.id ∈ (cfgs.foldl RdmaDeviceBuilder.insert b).devices.map (fun dev => dev.id) := by
  induction cfgs with
  | nil => intro b c h; cases h
  | cons c0 rest ih =>
    intro b c h
    rcases List.mem_cons.mp h with h2 | h2
    · subst h2
      exact foldl_ids_preserve rest (b.insert c) c.id (insert_ids_new b c)
    · exact ih (b.insert c0) c h2

theorem foldl_ids_origin (cfgs : List RdmaDeviceConfig) :
    ∀ (b : RdmaDeviceBuilder) (s : String),
      s ∈ (cfgs.foldl RdmaDeviceBuilder.insert b).devices.map (fun dev => dev.id) →
      s ∈ b.devices.map (fun dev => dev.id) ∨ ∃ c ∈ cfgs, s = c.id := by
  induction cfgs with
  | nil => intro b s h; exact Or.inl h
  | cons c0 rest ih =>
    intro b s h
    rcases ih (b.insert c0) s h with h2 | ⟨c, hc, he⟩
    · rcases insert_ids_origin b c0 s h2 with h3 | h3
      · exact Or.inl h3
      · exact Or.inr ⟨c0, List.mem_cons_self c0 rest, h3⟩
    · exact Or.inr ⟨c, List.mem_cons_of_mem c0 hc, he⟩

/-- C6: `build` with an identifier already present in the registry replaces
the device at the first position carrying that identifier, leaving the
registry length unchanged; `build` with an unseen identifier appends a new
entry; either way the handle returned is the newly constructed device. -/
theorem C6_build_replaces_or_appends (b : RdmaDeviceBuilder) (config : RdmaDeviceConfig) :
    (∀ i, b.devices.findIdx? (fun dev => dev.id == config.id) = some i →
        (b.build config).1.devices = b.devices.set i (VirtioRdma.new config.id) ∧
          (b.build config).1.devices.length = b.devices.length) ∧
      (b.devices.findIdx? (fun dev => dev.id == config.id) = none →
        (b.build config).1.devices = b.devices ++ [VirtioRdma.new config.id] ∧
          (b.build config).1.devices.length = b.devices.length + 1) ∧
      ((∃ dev ∈ b.devices, dev.id = config.id) ↔
        (b.devices.findIdx? (fun dev => dev.id == config.id)).isSome = true) ∧
      (b.build config).2 = VirtioRdma.new config.id := by
  refine ⟨?_, ?_, ?_, ?_⟩
  · intro i hpos
    constructor
    · simp [RdmaDeviceBuilder.build, hpos]
    · simp [RdmaDeviceBuilder.build, hpos]
  · intro hpos
    constructor
    · simp [RdmaDeviceBuilder.build, hpos]
    · simp [RdmaDeviceBuilder.build, hpos]
  · rw [List.findIdx?_isSome, List.any_eq_true]
    constructor
    · rintro ⟨dev, hmem, he⟩
      exact ⟨dev, hmem, beq_iff_eq.mpr he⟩
    · rintro ⟨dev, hmem, he⟩
      exact ⟨dev, hmem, beq_iff_eq.mp he⟩
  · cases hpos : b.devices.findIdx? (fun dev => dev.id == config.id) <;>
      simp [RdmaDeviceBuilder.build, hpos]

/-- C6 witness: replacing the single registered device keeps the one-element
registry, appending an unseen identifier grows it to two. -/
theorem C6_build_replaces_or_appends_witness :
    ((RdmaDeviceBuilder.mk [VirtioRdma.new "a"]).build ⟨"a"⟩).1.devices =
        [VirtioRdma.new "a"].set 0 (VirtioRdma.new "a") ∧
      ((RdmaDeviceBuilder.mk [VirtioRdma.new "a"]).build ⟨"b"⟩).1.devices =
        [VirtioRdma.new "a"] ++ [VirtioRdma.new "b"] ∧
      ((RdmaDeviceBuilder.mk [VirtioRdma.new "a"]).build ⟨"b"⟩).1.devices.length =
        [VirtioRdma.new "a"].length + 1 :=
  ⟨((C6_build_replaces_or_appends (RdmaDeviceBuilder.mk [VirtioRdma.new "a"]) ⟨"a"⟩).1 0
      (by rfl)).1,
    ((C6_build_replaces_or_appends (RdmaDeviceBuilder.mk [VirtioRdma.new "a"]) ⟨"b"⟩).2.1
      (by rfl)).1,
    ((C6_build_replaces_or_appends (RdmaDeviceBuilder.mk [VirtioRdma.new "a"]) ⟨"b"⟩).2.1
      (by rfl)).2⟩

/-- C7: after any sequence of successful inserts, `configs` returns exactly
one configuration per registered device, pointwise carrying that device's
identifier; every inserted identifier is reproduced by some returned
configuration, and every registered device's identifier stems from some
inserted configuration. -/
theorem C7_configs_roundtrip (cfgs : List RdmaDeviceConfig) :
    (insertSeq cfgs).configs.length = (insertSeq cfgs).devices.length ∧
      (∀ (i : Nat) (dev : VirtioRdma), (insertSeq cfgs).devices[i]? = some dev →
        (insertSeq cfgs).configs[i]? = some (RdmaDeviceConfig.mk dev.id)) ∧
      (∀ c ∈ cfgs, ∃ cfg ∈ (insertSeq cfgs).configs, cfg.id = c.id) ∧
      (∀ dev ∈ (insertSeq cfgs).devices, ∃ c ∈ cfgs, dev.id = c.id) := by
  refine ⟨by simp [RdmaDeviceBuilder.configs], ?_, ?_, ?_⟩
  · intro i dev h
    rw [RdmaDeviceBuilder.configs, List.getElem?_map, h]
    rfl
  · intro c hc
    have := foldl_ids_mem cfgs RdmaDeviceBuilder.new c hc
    obtain ⟨dev, hdev, hide⟩ := List.mem_map.mp this
    exact ⟨⟨dev.id⟩, List.mem_map.mpr ⟨dev, hdev, rfl⟩, hide⟩
  · intro dev hdev
    have hmem : dev.id ∈ (insertSeq cfgs).devices.map (fun d => d.id) :=
      List.mem_map.mpr ⟨dev, hdev, rfl⟩
    rcases foldl_ids_origin cfgs RdmaDeviceBuilder.new dev.id hmem with h | h
    · simp [RdmaDeviceBuilder.new] at h
    · exact h

/-- C7 witness: inserting ids "a", "b", "a" (the last replacing the first)
reproduces both identifiers through `configs`. -/
theorem C7_configs_roundtrip_witness :
    (insertSeq [⟨"a"⟩, ⟨"b"⟩, ⟨"a"⟩]).configs.length =
        (insertSeq [⟨"a"⟩, ⟨"b"⟩, ⟨"a"⟩]).devices.length ∧
      (∃ cfg ∈ (insertSeq [⟨"a"⟩, ⟨"b"⟩, ⟨"a"⟩]).configs, cfg.id = "b") :=
  ⟨(C7_configs_roundtrip [⟨"a"⟩, ⟨"b"⟩, ⟨"a"⟩]).1,
    (C7_configs_roundtrip [⟨"a"⟩, ⟨"b"⟩, ⟨"a"⟩]).2.2.1 ⟨"b"⟩
      (List.mem_cons_of_mem _ (List.mem_cons_self _ _))⟩

theorem parseRdmaDeviceConfig_unknown_field (fields : List (String × Json))
    (hex : ∃ p ∈ fields, p.1 ≠ "id") :
    parseRdmaDeviceConfig (Json.obj fields) = none := by
  obtain ⟨p, hp, hne⟩ := hex
  unfold parseRdmaDeviceConfig
  split
  · rename_i s heq
    injection heq with hfe
    subst hfe
    rcases List.mem_singleton.mp hp with rfl
    exact absurd rfl hne
  · rfl

/-- C8: `parse_put_rdma` fails with a client error when the path identifier is
absent, when the body does not decode to the one-field configuration (unknown
fields rejected), or when the path identifier differs from the body's id; only
when a path identifier is present, the body parses, and the two identifiers
agree does it return the insert-RDMA-device action carrying the parsed
configuration. -/
theorem C8_parse_put_rdma_contract (body : Json) (id_from_path : Option String) :
    (id_from_path = none → parse_put_rdma body id_from_path = .error .EmptyID) ∧
      (∀ id, id_from_path = some id → parseRdmaDeviceConfig body = none →
        parse_put_rdma body id_from_path = .error .SerdeJson) ∧
      (∀ id cfg, id_from_path = some id → parseRdmaDeviceConfig body = some cfg →
        id ≠ cfg.id →
        parse_put_rdma body id_from_path =
          .error (.Generic 400 "The id from the path does not match the id from the body!")) ∧
      (∀ id cfg, id_from_path = some id → parseRdmaDeviceConfig body = some cfg →
        id = cfg.id →
        parse_put_rdma body id_from_path = .ok (.InsertRdmaDevice cfg)) ∧
      (∀ fields, (∃ p ∈ fields, p.1 ≠ "id") →
        parseRdmaDeviceConfig (Json.obj fields) = none) := by
  refine ⟨?_, ?_, ?_, ?_, parseRdmaDeviceConfig_unknown_field⟩
  · intro h
    subst h
    rfl
  · intro id hpath hbody
    subst hpath
    simp [parse_put_rdma, checked_id, hbody]
  · intro id cfg hpath hbody hne
    subst hpath
    simp [parse_put_rdma, checked_id, hbody, hne]
  · intro id cfg hpath hbody he
    subst hpath
    simp [parse_put_rdma, checked_id, hbody, he]

/-- C8 witness: the concrete request bodies of the repository's own unit test,
one per hypothesis combination — missing path id, unparseable body, identifier
mismatch, unknown field, and the successful case. -/
theorem C8_parse_put_rdma_contract_witness :
    parse_put_rdma (Json.obj [("id", Json.str "bar")]) none = .error .EmptyID ∧
      parse_put_rdma Json.null (some "id") = .error .SerdeJson ∧
      parse_put_rdma (Json.obj [("id", Json.str "bar")]) (some "1") =
        .error (.Generic 400 "The id from the path does not match the id from the body!") ∧
      parse_put_rdma (Json.obj [("id", Json.str "rdma0")]) (some "rdma0") =
        .ok (.InsertRdmaDevice (RdmaDeviceConfig.mk "rdma0")) ∧
      parseRdmaDeviceConfig (Json.obj [("foo", Json.str "1")]) = none :=
  ⟨(C8_parse_put_rdma_contract (Json.obj [("id", Json.str "bar")]) none).1 rfl,
    (C8_parse_put_rdma_contract Json.null (some "id")).2.1 "id" rfl rfl,
    (C8_parse_put_rdma_contract (Json.obj [("id", Json.str "bar")]) (some "1")).2.2.1
      "1" (RdmaDeviceConfig.mk "bar") rfl rfl (by decide),
    (C8_parse_put_rdma_contract (Json.obj [("id", Json.str "rdma0")]) (some "rdma0")).2.2.2.1
      "rdma0" (RdmaDeviceConfig.mk "rdma0") rfl rfl rfl,
    (C8_parse_put_rdma_contract Json.null none).2.2.2.2 [("foo", Json.str "1")]
      ⟨("foo", Json.str "1"), List.mem_singleton.mpr rfl, by decide⟩⟩

/-- C10: `read_config` returns the caller's buffer unchanged and
`write_config` returns the device unchanged, for every offset and buffer. -/
theorem C10_config_space_noop (dev : VirtioRdma) (offset offset2 : Nat)
    (data data2 : List Nat) :
    dev.read_config offset data = data ∧ dev.write_config offset2 data2 = dev :=
  ⟨rfl, rfl⟩

end FirecrackerRdma
